import Mathlib

/-!
Verification of the device-command resilience layer of the GSM SMS gateway
add-on (`addon-gsm-gateway`).  The Python classes `DeviceConnectivityTracker`,
`SMSQueue`, `SMSDeliveryTracker`, the GET-endpoint deduplication cache of
`run.py`, and the recovery methods of `MQTTPublisher`
(`track_gammu_operation`, `_attempt_reconnect_if_needed`,
`_check_restart_timeout`, `_trigger_emergency_reset`) are shallowly embedded
as pure Lean functions.  Wall-clock timestamps are modelled as natural
numbers, supplied explicitly where the Python code reads `time.time()`.
Logging, file persistence, MQTT publication and the modem handle itself are
external effects with no bearing on the modelled state; the success or
failure of an external modem action (reconnect probe, soft reset) enters the
model as an explicit boolean parameter.  Process termination via `os._exit`
is modelled as an `exited` flag on the step result.
-/

namespace GsmGateway

/-- Truthiness of an optional Python string argument: `None` and the empty
string are falsy, every other string is truthy. -/
def strTruthy : Option String → Bool
  | none => false
  | some s => !(s == "")

/-- Substring test used by `record_success`: scans a character list for the
three consecutive characters of "sms". -/
def hasSms : List Char → Bool
  | 's' :: 'm' :: 's' :: _ => true
  | _ :: rest => hasSms rest
  | [] => false

/-- Lower-cased character sequence of a string (Python `s.lower()` on the
ASCII operation names used by the gateway). -/
def lowerChars (s : String) : List Char := s.data.map Char.toLower

/-- Embedding of the Python expression `'sms' in s.lower()`. -/
def containsSmsLower (s : String) : Bool := hasSms (lowerChars s)

/-- State of `DeviceConnectivityTracker` (mqtt_publisher.py, lines 553-568).
Field defaults mirror `__init__` with `offline_timeout_seconds=900`. -/
structure DeviceConnectivityTracker where
  last_success_time : Option Nat := none
  consecutive_failures : Nat := 0
  last_error : Option String := none
  offline_timeout : Nat := 900
  total_operations : Nat := 0
  successful_operations : Nat := 0
  initial_check_done : Bool := false
  hard_offline : Bool := false
  hard_offline_operation : Option String := none
deriving Repr, DecidableEq

/-- Embedding of `DeviceConnectivityTracker.record_success`
(mqtt_publisher.py, lines 570-618).  `now` stands for `time.time()`.  The
`try/except` import of `invalidate_network_type_cache` is an external cache
effect with no tracker state. -/
def DeviceConnectivityTracker.record_success (t : DeviceConnectivityTracker)
    (now : Nat) (operation_name : Option String := none) :
    DeviceConnectivityTracker :=
  let t1 := { t with last_success_time := some now }
  if t1.hard_offline then
    let is_sms_operation := strTruthy operation_name &&
      containsSmsLower (operation_name.getD "")
    let is_same_operation := strTruthy operation_name &&
      (operation_name == t1.hard_offline_operation)
    if is_sms_operation || is_same_operation then
      { t1 with hard_offline := false, hard_offline_operation := none,
                consecutive_failures := 0, last_error := none,
                total_operations := t1.total_operations + 1,
                successful_operations := t1.successful_operations + 1,
                initial_check_done := true }
    else
      { t1 with total_operations := t1.total_operations + 1,
                successful_operations := t1.successful_operations + 1 }
  else
    { t1 with consecutive_failures := 0, last_error := none,
              total_operations := t1.total_operations + 1,
              successful_operations := t1.successful_operations + 1,
              initial_check_done := true }

/-- Embedding of `DeviceConnectivityTracker.record_failure`
(mqtt_publisher.py, lines 620-637). -/
def DeviceConnectivityTracker.record_failure (t : DeviceConnectivityTracker)
    (error_message : Option String := none) (is_timeout : Bool := false)
    (operation_name : Option String := none) : DeviceConnectivityTracker :=
  let t1 := { t with
    consecutive_failures := t.consecutive_failures + 1,
    last_error := some (if strTruthy error_message then error_message.getD ""
                        else "Communication failed"),
    total_operations := t.total_operations + 1 }
  if is_timeout then
    { t1 with hard_offline := true, hard_offline_operation := operation_name }
  else t1

/-- Embedding of `DeviceConnectivityTracker.get_status`
(mqtt_publisher.py, lines 639-659). -/
def DeviceConnectivityTracker.get_status (t : DeviceConnectivityTracker)
    (now : Nat) : String :=
  if !t.initial_check_done then "offline"
  else
    match t.last_success_time with
    | none => "offline"
    | some ts =>
      if t.consecutive_failures ≥ 2 then "offline"
      else if t.hard_offline then "offline"
      else if now - ts > t.offline_timeout then "offline"
      else "online"

/-- Entry of the pending outbound queue (`SMSQueue.add` builds the dict
with keys number, text, smsc, queued_at, attempts). -/
structure QueuedSms where
  number : String
  text : String
  smsc : Option String
  queued_at : Nat
  attempts : Nat
deriving Repr, DecidableEq

/-- State of `SMSQueue` (mqtt_publisher.py, lines 37-155); the persisted
JSON file is an external mirror of `pending`.  Default expiry is
`SMS_QUEUE_EXPIRY_SECONDS = 3600`. -/
structure SMSQueue where
  pending : List QueuedSms
  expiry_seconds : Nat := 3600
deriving Repr, DecidableEq

/-- Matching test used by `SMSQueue.add`, `remove` and `increment_attempts`:
same number and same text. -/
def sameMessage (number text : String) (m : QueuedSms) : Bool :=
  m.number == number && m.text == text

/-- Embedding of `SMSQueue._clear_expired` (mqtt_publisher.py, lines
79-93); the early return on an empty list coincides with filtering it. -/
def SMSQueue.clear_expired (q : SMSQueue) (now : Nat) : SMSQueue :=
  { q with pending :=
      q.pending.filter (fun m => now - m.queued_at < q.expiry_seconds) }

/-- Embedding of `SMSQueue.add` (mqtt_publisher.py, lines 95-115): the
boolean result is the Python return value. -/
def SMSQueue.add (q : SMSQueue) (now : Nat) (number text : String)
    (smsc : Option String := none) : SMSQueue × Bool :=
  if q.pending.any (sameMessage number text) then (q, false)
  else ({ q with pending := q.pending ++ [⟨number, text, smsc, now, 0⟩] }, true)

/-- Embedding of `SMSQueue.remove` (mqtt_publisher.py, lines 117-127):
removes the first matching entry, if any. -/
def SMSQueue.remove (q : SMSQueue) (number text : String) : SMSQueue × Bool :=
  match q.pending.findIdx? (sameMessage number text) with
  | some i => ({ q with pending := q.pending.eraseIdx i }, true)
  | none => (q, false)

/-- Embedding of `SMSQueue.get_pending` (mqtt_publisher.py, lines 139-143):
clears expired entries, then returns a copy of the remaining list. -/
def SMSQueue.get_pending (q : SMSQueue) (now : Nat) :
    SMSQueue × List QueuedSms :=
  let q1 := q.clear_expired now
  (q1, q1.pending)

/-- First-match association lookup, the embedding of the Python dict
membership test and item access (keys are unique in every state the
gateway builds). -/
def assocFind {β : Type} (k : String) : List (String × β) → Option β
  | [] => none
  | (k1, v) :: rest => if k1 == k then some v else assocFind k rest

/-- Association update, the embedding of Python dict assignment: an
existing key keeps its position and gets the new value, a new key is
appended (insertion order). -/
def assocSet {β : Type} (k : String) (v : β) :
    List (String × β) → List (String × β)
  | [] => [(k, v)]
  | (k1, v1) :: rest =>
      if k1 == k then (k, v) :: rest else (k1, v1) :: assocSet k v rest

/-- One tracked delivery record (`SMSDeliveryTracker.track_sent_sms` builds
the dict with keys number, text_preview, sent_timestamp, status; the
delivered_timestamp key is added by `update_delivery_status`).  The
`time.strftime` timestamps stay strings, as in the source. -/
structure DeliveryRecord where
  number : String
  text_preview : String
  sent_timestamp : String
  status : String
  delivered_timestamp : Option String := none
deriving Repr, DecidableEq

/-- State of `SMSDeliveryTracker` (mqtt_publisher.py, lines 334-448) with
the default `max_tracked=50`; the ordered association list models the
insertion-ordered Python dict `pending_deliveries`. -/
structure SMSDeliveryTracker where
  pending_deliveries : List (String × DeliveryRecord)
  max_tracked : Nat := 50
deriving Repr, DecidableEq

/-- Lexicographic order on character lists by code point, the comparison
underlying Python string ordering for the ASCII timestamp strings. -/
def charListLt : List Char → List Char → Bool
  | [], [] => false
  | [], _ :: _ => true
  | _ :: _, [] => false
  | c :: cs, d :: ds =>
      if c.val < d.val then true
      else if d.val < c.val then false
      else charListLt cs ds

/-- Capacity pruning inside `SMSDeliveryTracker._save` (mqtt_publisher.py,
lines 363-370): when over capacity, keep the `max_tracked` entries with the
largest `sent_timestamp`, stably (Python `sorted(..., reverse=True)`). -/
def SMSDeliveryTracker.save_prune (d : SMSDeliveryTracker) :
    SMSDeliveryTracker :=
  if d.pending_deliveries.length > d.max_tracked then
    let descending := fun (a b : String × DeliveryRecord) =>
      !(charListLt a.2.sent_timestamp.data b.2.sent_timestamp.data)
    let kept := (d.pending_deliveries.mergeSort descending).take d.max_tracked
    { d with pending_deliveries := kept }
  else d

/-- Embedding of `SMSDeliveryTracker.track_sent_sms` (mqtt_publisher.py,
lines 379-392).  `message_ref` is the integer message reference returned by
the modem; Python truthiness makes 0 a no-op.  `nowStr` stands for
`time.strftime("%Y-%m-%d %H:%M:%S")`. -/
def SMSDeliveryTracker.track_sent_sms (d : SMSDeliveryTracker)
    (message_ref : Nat) (number text_preview : String) (nowStr : String) :
    SMSDeliveryTracker :=
  if message_ref ≠ 0 then
    let entry : DeliveryRecord :=
      ⟨number, String.mk (text_preview.data.take 50), nowStr, "sent", none⟩
    let updated := assocSet (toString message_ref) entry d.pending_deliveries
    SMSDeliveryTracker.save_prune { d with pending_deliveries := updated }
  else d

/-- Embedding of `SMSDeliveryTracker.update_delivery_status`
(mqtt_publisher.py, lines 394-407): the returned record is the copied dict
entry after mutation, `none` when the reference is unknown. -/
def SMSDeliveryTracker.update_delivery_status (d : SMSDeliveryTracker)
    (message_ref : Nat) (status : String) (timestamp : Option String)
    (nowStr : String) : SMSDeliveryTracker × Option DeliveryRecord :=
  let ref_str := toString message_ref
  match assocFind ref_str d.pending_deliveries with
  | some r0 =>
      let ts := if strTruthy timestamp then timestamp.getD "" else nowStr
      let r1 := { r0 with status := status, delivered_timestamp := some ts }
      let d1 := { d with
        pending_deliveries := assocSet ref_str r1 d.pending_deliveries }
      (SMSDeliveryTracker.save_prune d1, some r1)
  | none => (d, none)

/-- Embedding of `SMSDeliveryTracker.get_pending_count` (mqtt_publisher.py,
lines 409-415). -/
def SMSDeliveryTracker.get_pending_count (d : SMSDeliveryTracker) : Nat :=
  (d.pending_deliveries.filter (fun kv => kv.2.status == "sent")).length

/-- Dedup window of the GET send endpoint (run.py, line 192:
`_sms_dedup_window = 15`). -/
def sms_dedup_window : Nat := 15

/-- Eviction pass over `_sms_dedup_cache` (run.py, lines 795-796): keep the
entries recorded less than the window ago. -/
def dedupEvict (cache : List (String × Nat)) (now : Nat) :
    List (String × Nat) :=
  cache.filter (fun kv => now - kv.2 < sms_dedup_window)

/-- Outcome of one GET `/sms/...` request (run.py `send_sms_get`):
a short-circuited duplicate reports HTTP 200 without sending, a real send
reports 200, a failed send reports 500. -/
inductive GetSmsOutcome where
  | duplicateSkip
  | sentOk
  | sendFailed
deriving Repr, DecidableEq

/-- Embedding of the deduplication logic of the GET send endpoint (run.py,
lines 787-877).  `key` is the Python `f"{sms_number}|{sms_text}"` dedup
key, `now` is `time.time()`, and `sendOk` tells whether the queued
encode-and-send block would complete without raising.  The cache is the
module-level `_sms_dedup_cache`; it is reassigned to its evicted form
before the membership test, and the send timestamp is recorded only in the
success path and only when deduplication is enabled. -/
def send_sms_get (cache : List (String × Nat)) (enabled : Bool)
    (key : String) (now : Nat) (sendOk : Bool) :
    List (String × Nat) × GetSmsOutcome :=
  if enabled then
    let cache1 := dedupEvict cache now
    if (assocFind key cache1).isSome then (cache1, .duplicateSkip)
    else if sendOk then (assocSet key now cache1, .sentOk)
    else (cache1, .sendFailed)
  else
    if sendOk then (cache, .sentOk) else (cache, .sendFailed)

/-- Recovery-relevant state of `MQTTPublisher` (mqtt_publisher.py,
`__init__` lines 732-776).  Field defaults mirror the initializer with the
default add-on configuration (`auto_recovery=True`,
`auto_restart_on_failure=True`, `hard_offline_restart_timeout=30`).  The
modem handle, MQTT client, SMSC cache and the queue/history/delivery
singletons live outside this record. -/
structure MQTTPublisher where
  device_tracker : DeviceConnectivityTracker := {}
  auto_recovery : Bool := true
  consecutive_failures : Nat := 0
  reconnect_threshold : Nat := 5
  last_reconnect_attempt : Nat := 0
  reconnect_cooldown : Nat := 60
  auto_restart_on_failure : Bool := true
  failure_start_time : Option Nat := none
  restart_timeout : Nat := 120
  hard_offline_restart_timeout : Nat := 30
deriving Repr, DecidableEq

/-- Embedding of `MQTTPublisher._check_restart_timeout` (mqtt_publisher.py,
lines 2576-2607).  The boolean result is true exactly when the method
reaches `os._exit(1)`. -/
def check_restart_timeout (p : MQTTPublisher) (now : Nat) :
    MQTTPublisher × Bool :=
  if !p.auto_restart_on_failure then (p, false)
  else
    let p1 := match p.failure_start_time with
      | none => { p with failure_start_time := some now }
      | some _ => p
    let failure_duration := now - p1.failure_start_time.getD now
    let effective_timeout :=
      if p1.device_tracker.hard_offline then p1.hard_offline_restart_timeout
      else p1.restart_timeout
    if failure_duration ≥ effective_timeout then (p1, true) else (p1, false)

/-- Which external recovery actions a step performed (whether
`_reconnect_gammu` or the soft `Reset` path was entered). -/
structure RecoveryActions where
  reconnectAttempted : Bool := false
  softResetAttempted : Bool := false
deriving Repr, DecidableEq

/-- Embedding of `MQTTPublisher._attempt_reconnect_if_needed`
(mqtt_publisher.py, lines 2526-2550).  `reconnectOk` is the outcome of the
external `_reconnect_gammu` probe; the middle component records whether
`os._exit(1)` was reached (via `_check_restart_timeout` on a failed
reconnect). -/
def attempt_reconnect_if_needed (p : MQTTPublisher) (now : Nat)
    (reconnectOk : Bool) : MQTTPublisher × Bool × RecoveryActions :=
  if !p.auto_recovery then (p, false, {})
  else if p.consecutive_failures < p.reconnect_threshold then (p, false, {})
  else if now - p.last_reconnect_attempt < p.reconnect_cooldown then
    (p, false, {})
  else
    let p1 := { p with last_reconnect_attempt := now }
    if reconnectOk then
      ({ p1 with consecutive_failures := 0 }, false,
       { reconnectAttempted := true })
    else
      let r := check_restart_timeout p1 now
      (r.1, r.2, { reconnectAttempted := true })

/-- Result of `_trigger_emergency_reset`: successor state, whether
`os._exit(1)` was reached, the Python return value, and which external
actions ran. -/
structure EmergencyResult where
  state : MQTTPublisher
  exited : Bool
  retval : Bool
  actions : RecoveryActions
deriving Repr, DecidableEq

/-- Embedding of `MQTTPublisher._trigger_emergency_reset`
(mqtt_publisher.py, lines 2609-2680).  `softResetOk` bundles the external
soft `Reset(False)` plus its `GetManufacturer` probe; `reconnectOk` is the
fallback `_reconnect_gammu`.  The SMSC-cache clearing touches only fields
outside this model. -/
def trigger_emergency_reset (p : MQTTPublisher) (now : Nat)
    (error_code : Option Nat) (softResetOk reconnectOk : Bool) :
    EmergencyResult :=
  if error_code == some 2 || error_code == some 11 then
    if p.auto_restart_on_failure then ⟨p, true, false, {}⟩
    else ⟨p, false, false, {}⟩
  else
    let p1 := match p.failure_start_time with
      | none => { p with failure_start_time := some now }
      | some _ => p
    let failure_duration := now - p1.failure_start_time.getD now
    if failure_duration ≥ p1.restart_timeout && p1.auto_restart_on_failure
    then ⟨p1, true, false, {}⟩
    else if softResetOk then
      ⟨p1, false, true, { softResetAttempted := true }⟩
    else if reconnectOk then
      ⟨p1, false, true,
       { softResetAttempted := true, reconnectAttempted := true }⟩
    else
      ⟨p1, false, false,
       { softResetAttempted := true, reconnectAttempted := true }⟩

/-- Gammu error codes treated as recoverable by `track_gammu_operation`
(mqtt_publisher.py, lines 2744-2753). -/
def RECOVERABLE_ERROR_CODES : List Nat := [2, 11, 14, 31, 33, 37, 56, 69]

/-- Outcome of the wrapped modem call inside `track_gammu_operation`: a
result, a Python-level timeout, or an exception carrying an optional Gammu
error code.  The boolean fields feed the external action outcomes consumed
along the corresponding handler path. -/
inductive GammuEvent where
  | opSuccess (operation_name : Option String)
  | opTimeout (operation_name : Option String) (reconnectOk : Bool)
  | opError (operation_name : Option String) (error_code : Option Nat)
      (msg : Option String) (reconnectOk softResetOk emReconnectOk : Bool)
deriving Repr, DecidableEq

/-- Result of one `track_gammu_operation` call on the modelled state. -/
structure StepResult where
  state : MQTTPublisher
  exited : Bool
  actions : RecoveryActions
deriving Repr, DecidableEq

/-- Embedding of `MQTTPublisher.track_gammu_operation` (mqtt_publisher.py,
lines 2682-2808) acting on the modelled state.  The background pending-SMS
drain, MQTT status publication and the breathing delay are external
effects; on the recoverable-code path the method calls
`_trigger_emergency_reset` and then re-raises without recording the
failure in the tracker. -/
def track_gammu_operation (p : MQTTPublisher) (now : Nat) (ev : GammuEvent) :
    StepResult :=
  match ev with
  | .opSuccess op =>
      let tr := p.device_tracker.record_success now op
      let p1 := { p with device_tracker := tr, consecutive_failures := 0 }
      if !tr.hard_offline then
        ⟨{ p1 with failure_start_time := none }, false, {}⟩
      else
        let r := check_restart_timeout p1 now
        ⟨r.1, r.2, {}⟩
  | .opTimeout op reconnectOk =>
      let p1 := { p with consecutive_failures := p.consecutive_failures + 1 }
      let tr := p1.device_tracker.record_failure
        (some ((op.getD "None") ++ ": Python timeout (15s)")) true op
      let p2 := { p1 with device_tracker := tr }
      let r := attempt_reconnect_if_needed p2 now reconnectOk
      if r.2.1 then ⟨r.1, true, r.2.2⟩
      else
        let r2 := check_restart_timeout r.1 now
        ⟨r2.1, r2.2, r.2.2⟩
  | .opError op code msg reconnectOk softResetOk emReconnectOk =>
      if (code.map (RECOVERABLE_ERROR_CODES.contains ·)).getD false then
        let er := trigger_emergency_reset p now code softResetOk emReconnectOk
        ⟨er.state, er.exited, er.actions⟩
      else
        let p1 :=
          { p with consecutive_failures := p.consecutive_failures + 1 }
        let tr := p1.device_tracker.record_failure
          (some ((op.getD "None") ++ ": " ++ (msg.getD ""))) false op
        let p2 := { p1 with device_tracker := tr }
        let r := attempt_reconnect_if_needed p2 now reconnectOk
        if r.2.1 then ⟨r.1, true, r.2.2⟩
        else
          let r2 := check_restart_timeout r.1 now
          ⟨r2.1, r2.2, r.2.2⟩

/-- Runs a timed sequence of modem-call outcomes from a given state,
stopping at the first step that reaches `os._exit(1)`. -/
def runTrace (p : MQTTPublisher) : List (Nat × GammuEvent) → MQTTPublisher × Bool
  | [] => (p, false)
  | (now, ev) :: rest =>
      let r := track_gammu_operation p now ev
      if r.exited then (r.state, true) else runTrace r.state rest

/-- Freshly initialized publisher with the default configuration, as in the
spec scenario (hard_offline_restart_timeout = 30). -/
def scenario_init : MQTTPublisher := {}

/-- Spec scenario trace: `retrieveAllSms` times out at t=0, status polls
succeed at t=10, 20, 30. -/
def scenario_events : List (Nat × GammuEvent) :=
  [(0, .opTimeout (some "retrieveAllSms") false),
   (10, .opSuccess (some "GetSignalQuality")),
   (20, .opSuccess (some "GetSignalQuality")),
   (30, .opSuccess (some "GetSignalQuality"))]

/-- C4: for every Connectivity Tracker state, the derived status is
"offline" exactly when the initial check has not completed, or no success
was ever recorded, or at least two consecutive failures accumulated, or the
tracker is hard-offline, or the last success is older than
`offline_timeout`; otherwise the status is "online"; in particular two or
more consecutive failures force "offline". -/
theorem C4_status_characterization (t : DeviceConnectivityTracker) (now : Nat) :
    (t.get_status now = "offline" ↔
       (t.initial_check_done = false ∨ t.last_success_time = none ∨
        2 ≤ t.consecutive_failures ∨ t.hard_offline = true ∨
        (∃ ts, t.last_success_time = some ts ∧ t.offline_timeout < now - ts))) ∧
    (t.get_status now = "online" ↔
       ¬ (t.initial_check_done = false ∨ t.last_success_time = none ∨
          2 ≤ t.consecutive_failures ∨ t.hard_offline = true ∨
          (∃ ts, t.last_success_time = some ts ∧ t.offline_timeout < now - ts))) ∧
    (2 ≤ t.consecutive_failures → t.get_status now = "offline") := by
  unfold DeviceConnectivityTracker.get_status
  rcases hls : t.last_success_time with _ | ts <;>
    cases hinit : t.initial_check_done <;>
      cases hho : t.hard_offline <;>
        by_cases hcf : 2 ≤ t.consecutive_failures <;>
          simp [hls, hinit, hho, hcf] <;>
            omega

/-- C1: a timeout failure sets `hard_offline` and records the failing
operation name; a subsequent success (with a non-empty operation name, as
every gateway call site supplies) clears `hard_offline` and resets
`consecutive_failures` to 0 exactly when its name contains "sms"
case-insensitively or equals the recorded hard-offline operation name, and
every other success leaves `hard_offline` set. -/
theorem C1_hard_offline_set_and_clear
    (t : DeviceConnectivityTracker) (failOp succOp : String)
    (msg : Option String) (n2 : Nat) (hs : succOp ≠ "") :
    (t.record_failure msg true (some failOp)).hard_offline = true ∧
    (t.record_failure msg true (some failOp)).hard_offline_operation = some failOp ∧
    ((((t.record_failure msg true (some failOp)).record_success n2
        (some succOp)).hard_offline = false ∧
      ((t.record_failure msg true (some failOp)).record_success n2
        (some succOp)).consecutive_failures = 0) ↔
      (containsSmsLower succOp = true ∨ succOp = failOp)) ∧
    (¬(containsSmsLower succOp = true ∨ succOp = failOp) →
      ((t.record_failure msg true (some failOp)).record_success n2
        (some succOp)).hard_offline = true) := by
  refine ⟨by simp [DeviceConnectivityTracker.record_failure],
          by simp [DeviceConnectivityTracker.record_failure], ?_, ?_⟩ <;>
    by_cases hsms : containsSmsLower succOp = true <;>
      by_cases heq : succOp = failOp <;>
        first
        | (subst heq;
           simp [DeviceConnectivityTracker.record_failure,
             DeviceConnectivityTracker.record_success, strTruthy, hs, hsms])
        | simp [DeviceConnectivityTracker.record_failure,
            DeviceConnectivityTracker.record_success, strTruthy, hs, hsms, heq]

/-- C1 witness: after `retrieveAllSms` times out, the tracker is
hard-offline, and a later `SendSMS` success clears it. -/
theorem C1_hard_offline_set_and_clear_witness :
    (DeviceConnectivityTracker.record_failure {} none true
      (some "retrieveAllSms")).hard_offline = true ∧
    ((DeviceConnectivityTracker.record_failure {} none true
      (some "retrieveAllSms")).record_success 5
      (some "SendSMS")).hard_offline = false := by
  have h := C1_hard_offline_set_and_clear {} "retrieveAllSms" "SendSMS" none 5
    (by decide)
  exact ⟨h.1, (h.2.2.1.mpr (Or.inl (by decide))).1⟩

/-- C10: a success recorded while hard-offline whose operation name is
neither SMS-class nor the recorded hard-offline operation updates
`last_success_time` and both operation counters but leaves
`consecutive_failures`, `hard_offline`, `hard_offline_operation`,
`last_error` and `initial_check_done` unchanged, so the derived status is
still "offline". -/
theorem C10_nonqualifying_success_frame
    (t : DeviceConnectivityTracker) (now now2 : Nat) (succOp : String)
    (hho : t.hard_offline = true)
    (hsms : containsSmsLower succOp = false)
    (hne : some succOp ≠ t.hard_offline_operation) :
    (t.record_success now (some succOp)).last_success_time = some now ∧
    (t.record_success now (some succOp)).total_operations =
      t.total_operations + 1 ∧
    (t.record_success now (some succOp)).successful_operations =
      t.successful_operations + 1 ∧
    (t.record_success now (some succOp)).consecutive_failures =
      t.consecutive_failures ∧
    (t.record_success now (some succOp)).hard_offline = true ∧
    (t.record_success now (some succOp)).hard_offline_operation =
      t.hard_offline_operation ∧
    (t.record_success now (some succOp)).last_error = t.last_error ∧
    (t.record_success now (some succOp)).initial_check_done =
      t.initial_check_done ∧
    (t.record_success now (some succOp)).get_status now2 = "offline" := by
  have hne' : (some succOp == t.hard_offline_operation) = false := by
    simpa using hne
  have hmain : t.record_success now (some succOp) =
      { t with last_success_time := some now,
               total_operations := t.total_operations + 1,
               successful_operations := t.successful_operations + 1 } := by
    simp [DeviceConnectivityTracker.record_success, hho, hsms, hne', strTruthy]
  refine ⟨?_, ?_, ?_, ?_, ?_, ?_, ?_, ?_, ?_⟩ <;>
    simp [hmain, DeviceConnectivityTracker.get_status, hho]

/-- C10 witness: a `GetSignalQuality` success during a `retrieveAllSms`
hard-offline leaves the tracker hard-offline and the status "offline". -/
theorem C10_nonqualifying_success_frame_witness :
    (DeviceConnectivityTracker.record_success
      { hard_offline := true, hard_offline_operation := some "retrieveAllSms",
        last_error := some "retrieveAllSms: Python timeout (15s)",
        consecutive_failures := 1 } 40
      (some "GetSignalQuality")).hard_offline = true ∧
    (DeviceConnectivityTracker.record_success
      { hard_offline := true, hard_offline_operation := some "retrieveAllSms",
        last_error := some "retrieveAllSms: Python timeout (15s)",
        consecutive_failures := 1 } 40
      (some "GetSignalQuality")).get_status 41 = "offline" := by
  have h := C10_nonqualifying_success_frame
    { hard_offline := true, hard_offline_operation := some "retrieveAllSms",
      last_error := some "retrieveAllSms: Python timeout (15s)",
      consecutive_failures := 1 } 40 41 "GetSignalQuality" rfl (by decide)
    (by decide)
  exact ⟨h.2.2.2.2.1, h.2.2.2.2.2.2.2.2⟩

/-- C6: `SMSQueue.add` is a rejecting no-op (returns false) when an entry
with the same recipient and text is already pending, otherwise it appends
exactly one entry with `attempts = 0` and returns true, so two consecutive
identical adds leave exactly one matching queue entry. -/
theorem C6_add_rejects_duplicates (q : SMSQueue) (n1 n2 : Nat) (r t : String)
    (smsc1 smsc2 : Option String) :
    (q.pending.any (sameMessage r t) = true → q.add n1 r t smsc1 = (q, false)) ∧
    (q.pending.any (sameMessage r t) = false →
       (q.add n1 r t smsc1).1.pending = q.pending ++ [⟨r, t, smsc1, n1, 0⟩] ∧
       (q.add n1 r t smsc1).2 = true) ∧
    (q.pending.countP (sameMessage r t) = 0 →
       ((q.add n1 r t smsc1).1.add n2 r t smsc2).1.pending.countP
          (sameMessage r t) = 1) := by
  refine ⟨fun h => by simp [SMSQueue.add, h],
          fun h => by simp [SMSQueue.add, h], fun h => ?_⟩
  have hany : q.pending.any (sameMessage r t) = false := by
    rw [List.any_eq_false]
    intro x hx
    have hx0 := List.countP_eq_zero.mp h x hx
    simpa using hx0
  have hm : sameMessage r t ⟨r, t, smsc1, n1, 0⟩ = true := by
    simp [sameMessage]
  simp [SMSQueue.add, hany, List.any_append, hm, List.countP_append, h]

/-- C6 witness: adding the same recipient and text twice to an empty queue
leaves exactly one matching entry. -/
theorem C6_add_rejects_duplicates_witness :
    (((SMSQueue.mk [] 3600).add 10 "+15551234567" "hi" none).1.add 11
      "+15551234567" "hi" none).1.pending.countP
      (sameMessage "+15551234567" "hi") = 1 := by
  have h := C6_add_rejects_duplicates (SMSQueue.mk [] 3600) 10 11
    "+15551234567" "hi" none none
  exact h.2.2 (by decide)

/-- C7: `SMSQueue.get_pending` first drops every entry whose age reaches
the expiry (in particular every entry strictly older than the expiry) and
returns the remaining entries as stored; consequently a message accepted
more than `expiry_seconds` ago yields no matching entry. -/
theorem C7_get_pending_evicts_expired (q : SMSQueue) (now t0 : Nat)
    (r t : String) (smsc : Option String) :
    ((q.get_pending now).2 =
       q.pending.filter (fun m => now - m.queued_at < q.expiry_seconds)) ∧
    ((q.get_pending now).1.pending = (q.get_pending now).2) ∧
    (∀ m ∈ (q.get_pending now).2, ¬ q.expiry_seconds < now - m.queued_at) ∧
    ((q.add t0 r t smsc).2 = true → q.expiry_seconds < now - t0 →
       ((q.add t0 r t smsc).1.get_pending now).2.filter
          (fun m => sameMessage r t m) = []) := by
  refine ⟨rfl, rfl, fun m hm => ?_, fun hacc hold => ?_⟩
  · simp [SMSQueue.get_pending, SMSQueue.clear_expired, List.mem_filter] at hm
    omega
  · have hany : q.pending.any (sameMessage r t) = false := by
      by_cases hq : q.pending.any (sameMessage r t) = true
      · simp [SMSQueue.add, hq] at hacc
      · simpa using hq
    rw [List.filter_eq_nil_iff]
    intro m hm
    have hm' : m ∈ (q.pending ++ [(⟨r, t, smsc, t0, 0⟩ : QueuedSms)]).filter
        (fun (x : QueuedSms) => now - x.queued_at < q.expiry_seconds) := by
      simpa [SMSQueue.add, hany, SMSQueue.get_pending,
        SMSQueue.clear_expired] using hm
    rw [List.mem_filter] at hm'
    obtain ⟨hmem, hkeep⟩ := hm'
    rw [List.mem_append] at hmem
    rcases hmem with hmem | hmem
    · have hx := List.any_eq_false.mp hany m hmem
      simpa using hx
    · have hmeq : m = (⟨r, t, smsc, t0, 0⟩ : QueuedSms) := by simpa using hmem
      subst hmeq
      simp at hkeep
      omega

/-- C7 witness: a message queued at t=0 is gone from `get_pending` at
t=4000 with the default one-hour expiry. -/
theorem C7_get_pending_evicts_expired_witness :
    (((SMSQueue.mk [] 3600).add 0 "+15551234567" "hi" none).1.get_pending
      4000).2.filter (fun m => sameMessage "+15551234567" "hi" m) = [] := by
  have h := C7_get_pending_evicts_expired (SMSQueue.mk [] 3600) 4000 0
    "+15551234567" "hi" none
  exact h.2.2.2 (by decide) (by decide)

/-- Helper: a key absent from an association list is absent from any filter
of it. -/
theorem assocFind_filter_none {β : Type} (k : String) (p : String × β → Bool)
    (l : List (String × β)) (h : assocFind k l = none) :
    assocFind k (l.filter p) = none := by
  induction l with
  | nil => simp [assocFind]
  | cons kv rest ih =>
    obtain ⟨k1, v⟩ := kv
    by_cases hk : (k1 == k) = true
    · simp [assocFind, hk] at h
    · simp [assocFind, hk] at h
      by_cases hp : p (k1, v) = true <;>
        simp [List.filter, hp, assocFind, hk, ih h]

/-- Helper: setting an absent key appends the binding at the end. -/
theorem assocSet_of_not_found {β : Type} (k : String) (v : β)
    (l : List (String × β)) (h : assocFind k l = none) :
    assocSet k v l = l ++ [(k, v)] := by
  induction l with
  | nil => simp [assocSet]
  | cons kv rest ih =>
    obtain ⟨k1, v1⟩ := kv
    by_cases hk : (k1 == k) = true
    · simp [assocFind, hk] at h
    · simp [assocFind, hk] at h
      simp [assocSet, hk, ih h]

/-- Helper: lookup skips a prefix that does not contain the key. -/
theorem assocFind_append_left_none {β : Type} (k : String)
    (l1 l2 : List (String × β)) (h : assocFind k l1 = none) :
    assocFind k (l1 ++ l2) = assocFind k l2 := by
  induction l1 with
  | nil => simp
  | cons kv rest ih =>
    obtain ⟨k1, v1⟩ := kv
    by_cases hk : (k1 == k) = true
    · simp [assocFind, hk] at h
    · simp [assocFind, hk] at h ⊢
      exact ih h

/-- C8: with GET-endpoint deduplication enabled, a key not in the cache is
not flagged as duplicate; a successful send records the key with its
timestamp and a repeat within the 15 s window short-circuits as a
duplicate; once more than the window has elapsed since the recorded send
the key is no longer flagged; a failed send records nothing. -/
theorem C8_dedup_window (cache : List (String × Nat)) (key : String)
    (t1 t2 t3 : Nat) (s1 s2 s3 : Bool)
    (hfresh : assocFind key cache = none) :
    ((send_sms_get cache true key t1 s1).2 ≠ .duplicateSkip) ∧
    ((send_sms_get cache true key t1 true).2 = .sentOk ∧
     assocFind key (send_sms_get cache true key t1 true).1 = some t1) ∧
    (t2 - t1 < sms_dedup_window →
       (send_sms_get (send_sms_get cache true key t1 true).1 true key t2 s2).2
         = .duplicateSkip) ∧
    (sms_dedup_window < t3 - t1 →
       (send_sms_get (send_sms_get cache true key t1 true).1 true key t3 s3).2
         ≠ .duplicateSkip) ∧
    ((send_sms_get cache true key t1 false).2 = .sendFailed ∧
     assocFind key (send_sms_get cache true key t1 false).1 = none) := by
  have h1 : assocFind key (dedupEvict cache t1) = none :=
    assocFind_filter_none key _ cache hfresh
  have hstep1 : send_sms_get cache true key t1 true =
      (dedupEvict cache t1 ++ [(key, t1)], .sentOk) := by
    simp [send_sms_get, h1, assocSet_of_not_found key t1 _ h1]
  refine ⟨?_, ?_, fun h2 => ?_, fun h3 => ?_, ?_⟩
  · cases s1 <;> simp [send_sms_get, h1]
  · rw [hstep1]
    refine ⟨rfl, ?_⟩
    rw [assocFind_append_left_none key _ _ h1]
    simp [assocFind]
  · have hev : dedupEvict (dedupEvict cache t1 ++ [(key, t1)]) t2 =
        dedupEvict (dedupEvict cache t1) t2 ++ [(key, t1)] := by
      simp [dedupEvict, List.filter_append, h2]
    have hf : assocFind key (dedupEvict (dedupEvict cache t1) t2) = none :=
      assocFind_filter_none key _ _ h1
    rw [hstep1]
    simp only [send_sms_get, if_true]
    rw [hev, assocFind_append_left_none key _ _ hf]
    simp [assocFind]
  · have hdrop : ¬ (t3 - t1 < sms_dedup_window) := by omega
    have hev : dedupEvict (dedupEvict cache t1 ++ [(key, t1)]) t3 =
        dedupEvict (dedupEvict cache t1) t3 := by
      simp [dedupEvict, List.filter_append, hdrop]
    have hf : assocFind key (dedupEvict (dedupEvict cache t1) t3) = none :=
      assocFind_filter_none key _ _ h1
    rw [hstep1]
    cases s3 <;>
      simp [send_sms_get, hev, hf]
  · simp [send_sms_get, h1]

/-- C8 witness: first request at t=100 sends, a repeat at t=110 is
short-circuited as a duplicate, a repeat at t=200 is not. -/
theorem C8_dedup_window_witness :
    (send_sms_get [] true "+15551234567|hi" 100 true).2 = .sentOk ∧
    (send_sms_get (send_sms_get [] true "+15551234567|hi" 100 true).1 true
      "+15551234567|hi" 110 true).2 = .duplicateSkip ∧
    (send_sms_get (send_sms_get [] true "+15551234567|hi" 100 true).1 true
      "+15551234567|hi" 200 true).2 ≠ .duplicateSkip := by
  have h := C8_dedup_window [] "+15551234567|hi" 100 110 200 true true true rfl
  exact ⟨h.2.1.1, h.2.2.1 (by decide), h.2.2.2.1 (by decide)⟩

/-- Helper: lookup after setting the same key yields the new value. -/
theorem assocFind_assocSet_self {β : Type} (k : String) (v : β)
    (l : List (String × β)) : assocFind k (assocSet k v l) = some v := by
  induction l with
  | nil => simp [assocSet, assocFind]
  | cons kv rest ih =>
    obtain ⟨k1, v1⟩ := kv
    by_cases hk : (k1 == k) = true <;>
      simp [assocSet, assocFind, hk, ih]

/-- Helper: setting one key leaves lookups of any other key unchanged. -/
theorem assocFind_assocSet_ne {β : Type} (k k2 : String) (v : β)
    (l : List (String × β)) (h : k2 ≠ k) :
    assocFind k2 (assocSet k v l) = assocFind k2 l := by
  have hk2 : (k == k2) = false := by
    simp
    intro hc
    exact h hc.symm
  induction l with
  | nil => simp [assocSet, assocFind, hk2]
  | cons kv rest ih =>
    obtain ⟨k1, v1⟩ := kv
    by_cases hk : (k1 == k) = true
    · have hne : (k1 == k2) = false := by
        have hkk : k1 = k := by simpa using hk
        subst hkk
        exact hk2
      simp [assocSet, assocFind, hk, hk2, hne]
    · simp [assocSet, assocFind, hk, ih]

/-- Helper: overwriting an existing key preserves the list length. -/
theorem length_assocSet_found {β : Type} (k : String) (v w : β)
    (l : List (String × β)) (h : assocFind k l = some w) :
    (assocSet k v l).length = l.length := by
  induction l with
  | nil => simp [assocFind] at h
  | cons kv rest ih =>
    obtain ⟨k1, v1⟩ := kv
    by_cases hk : (k1 == k) = true
    · simp [assocSet, hk]
    · simp [assocFind, hk] at h
      simp [assocSet, hk, ih h]

/-- Helper: the save-time pruning is the identity while the collection is
within capacity. -/
theorem save_prune_noop (d : SMSDeliveryTracker)
    (h : d.pending_deliveries.length ≤ d.max_tracked) :
    d.save_prune = d := by
  have hnot : ¬ d.pending_deliveries.length > d.max_tracked := by omega
  simp [SMSDeliveryTracker.save_prune, hnot]

/-- C9: updating a tracked reference returns the record with the new status
and a non-null delivered timestamp (the given one, or the current time when
omitted), stores it under the same reference, and leaves every other
reference unchanged; updating an unknown reference returns none and changes
nothing; a second report for the same reference just overwrites the status
and the delivered timestamp. -/
theorem C9_update_delivery_status (d : SMSDeliveryTracker) (ref : Nat)
    (status1 status2 : String) (ts1 ts2 : Option String) (now1 now2 : String)
    (r0 : DeliveryRecord)
    (hlen : d.pending_deliveries.length ≤ d.max_tracked)
    (hfound : assocFind (toString ref) d.pending_deliveries = some r0) :
    ((d.update_delivery_status ref status1 ts1 now1).2 =
       some { r0 with status := status1,
                      delivered_timestamp :=
                        some (if strTruthy ts1 then ts1.getD "" else now1) }) ∧
    (assocFind (toString ref)
       (d.update_delivery_status ref status1 ts1 now1).1.pending_deliveries =
       some { r0 with status := status1,
                      delivered_timestamp :=
                        some (if strTruthy ts1 then ts1.getD "" else now1) }) ∧
    (∀ k, k ≠ toString ref →
       assocFind k
         (d.update_delivery_status ref status1 ts1 now1).1.pending_deliveries =
       assocFind k d.pending_deliveries) ∧
    (∀ (d2 : SMSDeliveryTracker) (ref2 : Nat) (st : String)
       (ts : Option String) (nw : String),
       assocFind (toString ref2) d2.pending_deliveries = none →
       d2.update_delivery_status ref2 st ts nw = (d2, none)) ∧
    (((d.update_delivery_status ref status1 ts1 now1).1.update_delivery_status
        ref status2 ts2 now2).2 =
       some { r0 with status := status2,
                      delivered_timestamp :=
                        some (if strTruthy ts2 then ts2.getD "" else now2) }) := by
  have hlen1 : (assocSet (toString ref)
      { r0 with status := status1,
                delivered_timestamp :=
                  some (if strTruthy ts1 then ts1.getD "" else now1) }
      d.pending_deliveries).length = d.pending_deliveries.length :=
    length_assocSet_found _ _ r0 _ hfound
  have hstep : d.update_delivery_status ref status1 ts1 now1 =
      ({ d with pending_deliveries :=
           (assocSet (toString ref)
             { r0 with status := status1,
                       delivered_timestamp :=
                         some (if strTruthy ts1 then ts1.getD "" else now1) }
             d.pending_deliveries) },
       some { r0 with status := status1,
                      delivered_timestamp :=
                        some (if strTruthy ts1 then ts1.getD "" else now1) }) := by
    simp only [SMSDeliveryTracker.update_delivery_status, hfound]
    rw [save_prune_noop]
    rw [hlen1]
    exact hlen
  have hfound2 : assocFind (toString ref)
      (assocSet (toString ref)
        { r0 with status := status1,
                  delivered_timestamp :=
                    some (if strTruthy ts1 then ts1.getD "" else now1) }
        d.pending_deliveries) =
      some { r0 with status := status1,
                     delivered_timestamp :=
                       some (if strTruthy ts1 then ts1.getD "" else now1) } :=
    assocFind_assocSet_self _ _ _
  refine ⟨by rw [hstep], ?_, fun k hk => ?_, fun d2 ref2 st ts nw hnone => ?_, ?_⟩
  · rw [hstep]
    exact hfound2
  · rw [hstep]
    exact assocFind_assocSet_ne _ _ _ _ hk
  · simp only [SMSDeliveryTracker.update_delivery_status, hnone]
  · rw [hstep]
    simp only [SMSDeliveryTracker.update_delivery_status, hfound2]

/-- C9 witness: the spec scenario — a delivery tracked for reference 42 to
+15551234567, then reported "delivered": the returned record carries the
new status and a non-null delivered timestamp. -/
theorem C9_update_delivery_status_witness :
    ((SMSDeliveryTracker.mk
        [("42", ⟨"+15551234567", "hello", "2024-01-01 00:00:00", "sent",
                 none⟩)] 50).update_delivery_status 42 "delivered" none
        "2024-01-02 09:00:00").2 =
      some ⟨"+15551234567", "hello", "2024-01-01 00:00:00", "delivered",
            some "2024-01-02 09:00:00"⟩ := by
  have h := C9_update_delivery_status
    (SMSDeliveryTracker.mk
      [("42", ⟨"+15551234567", "hello", "2024-01-01 00:00:00", "sent", none⟩)]
      50) 42 "delivered" "other" none none "2024-01-02 09:00:00" "x"
    ⟨"+15551234567", "hello", "2024-01-01 00:00:00", "sent", none⟩
    (by decide) (by decide)
  simpa using h.1

/-- Helper: a running restart timer survives `_check_restart_timeout`
untouched. -/
theorem check_restart_timeout_keeps (p : MQTTPublisher) (now t0 : Nat)
    (h : p.failure_start_time = some t0) :
    (check_restart_timeout p now).1.failure_start_time = some t0 := by
  by_cases hauto : p.auto_restart_on_failure = true
  · simp only [check_restart_timeout, hauto, Bool.not_true, Bool.false_eq_true,
      if_false, h]
    split <;> split <;> exact h
  · simp only [Bool.not_eq_true] at hauto
    simp [check_restart_timeout, hauto, h]

/-- Helper: `_check_restart_timeout` never clears the restart timer. -/
theorem check_restart_timeout_none (p : MQTTPublisher) (now : Nat)
    (h : (check_restart_timeout p now).1.failure_start_time = none) :
    p.failure_start_time = none := by
  rcases hst : p.failure_start_time with _ | t0
  · rfl
  · rw [check_restart_timeout_keeps p now t0 hst] at h
    exact absurd h (by simp)

/-- Helper: a running restart timer survives `_attempt_reconnect_if_needed`
untouched, whatever the reconnect outcome. -/
theorem attempt_reconnect_keeps (p : MQTTPublisher) (now t0 : Nat)
    (rOk : Bool) (h : p.failure_start_time = some t0) :
    (attempt_reconnect_if_needed p now rOk).1.failure_start_time = some t0 := by
  unfold attempt_reconnect_if_needed
  split
  · exact h
  · split
    · exact h
    · split
      · exact h
      · cases rOk
        · simp only [Bool.false_eq_true, if_false]
          exact check_restart_timeout_keeps _ now t0 h
        · simpa using h

/-- Helper: `_attempt_reconnect_if_needed` never clears the restart
timer. -/
theorem attempt_reconnect_none (p : MQTTPublisher) (now : Nat) (rOk : Bool)
    (h : (attempt_reconnect_if_needed p now rOk).1.failure_start_time = none) :
    p.failure_start_time = none := by
  rcases hst : p.failure_start_time with _ | t0
  · rfl
  · rw [attempt_reconnect_keeps p now t0 rOk hst] at h
    exact absurd h (by simp)

/-- Helper: a running restart timer survives `_trigger_emergency_reset`
untouched, whatever the reset and reconnect outcomes. -/
theorem trigger_emergency_reset_keeps (p : MQTTPublisher) (now t0 : Nat)
    (code : Option Nat) (sOk rOk : Bool) (h : p.failure_start_time = some t0) :
    (trigger_emergency_reset p now code sOk rOk).state.failure_start_time =
      some t0 := by
  unfold trigger_emergency_reset
  split
  · split <;> exact h
  · simp only [h]
    split
    · exact h
    · split
      · exact h
      · split <;> exact h

/-- Helper: `_trigger_emergency_reset` never clears the restart timer. -/
theorem trigger_emergency_reset_none (p : MQTTPublisher) (now : Nat)
    (code : Option Nat) (sOk rOk : Bool)
    (h : (trigger_emergency_reset p now code sOk
            rOk).state.failure_start_time = none) :
    p.failure_start_time = none := by
  rcases hst : p.failure_start_time with _ | t0
  · rfl
  · rw [trigger_emergency_reset_keeps p now t0 code sOk rOk hst] at h
    exact absurd h (by simp)

/-- C3: with auto-restart enabled and a running failure window, the restart
check terminates the process exactly when the elapsed failure duration
reaches the effective threshold — `hard_offline_restart_timeout` while
hard-offline, `restart_timeout` otherwise; and in the spec scenario (hard
offline from a `retrieveAllSms` timeout at t=0, default thresholds) the
restart fires by t=30. -/
theorem C3_restart_threshold (p : MQTTPublisher) (now t0 : Nat)
    (hauto : p.auto_restart_on_failure = true)
    (hstart : p.failure_start_time = some t0) :
    ((check_restart_timeout p now).2 = true ↔
       (if p.device_tracker.hard_offline then p.hard_offline_restart_timeout
        else p.restart_timeout) ≤ now - t0) ∧
    (runTrace scenario_init scenario_events).2 = true := by
  refine ⟨?_, by decide⟩
  cases hho : p.device_tracker.hard_offline <;>
    simp only [check_restart_timeout, hauto, Bool.not_true, Bool.false_eq_true,
      if_false, if_true, hstart, hho] <;>
      split <;> simp_all

/-- C3 witness: hard-offline with the window open since t=0 and the default
30 s hard-offline threshold triggers the restart at t=30. -/
theorem C3_restart_threshold_witness :
    (check_restart_timeout
      { device_tracker := { hard_offline := true },
        failure_start_time := some 0 } 30).2 = true := by
  have h := C3_restart_threshold
    { device_tracker := { hard_offline := true },
      failure_start_time := some 0 } 30 0 rfl rfl
  exact h.1.mpr (by decide)

/-- C2: with the restart timer running, a reconnect attempt (successful or
not), an emergency reset (successful or not), and any success after which
the tracker is still hard-offline all leave `failure_start_time` unchanged;
and a step can only clear `failure_start_time` when it is a success that
leaves the tracker not hard-offline. -/
theorem C2_recovery_timer_preserved (p : MQTTPublisher) (now t0 : Nat)
    (op : Option String) (code : Option Nat) (softOk reconnOk : Bool)
    (ev : GammuEvent) (htimer : p.failure_start_time = some t0) :
    ((attempt_reconnect_if_needed p now reconnOk).1.failure_start_time =
       some t0) ∧
    ((trigger_emergency_reset p now code softOk
        reconnOk).state.failure_start_time = some t0) ∧
    ((p.device_tracker.record_success now op).hard_offline = true →
       (track_gammu_operation p now
         (.opSuccess op)).state.failure_start_time = some t0) ∧
    ((track_gammu_operation p now ev).state.failure_start_time = none →
       ∃ o, ev = .opSuccess o ∧
            (p.device_tracker.record_success now o).hard_offline = false) := by
  refine ⟨attempt_reconnect_keeps p now t0 reconnOk htimer,
          trigger_emergency_reset_keeps p now t0 code softOk reconnOk htimer,
          fun hho => ?_, fun hnone => ?_⟩
  · simp only [track_gammu_operation, hho, Bool.not_true, Bool.false_eq_true,
      if_false]
    apply check_restart_timeout_keeps
    simpa using htimer
  · cases ev with
    | opSuccess o =>
      by_cases hho : (p.device_tracker.record_success now o).hard_offline = true
      · exfalso
        simp only [track_gammu_operation, hho, Bool.not_true,
          Bool.false_eq_true, if_false] at hnone
        have h2 := check_restart_timeout_none _ _ hnone
        simp [htimer] at h2
      · exact ⟨o, rfl, by simpa using hho⟩
    | opTimeout o rOk =>
      exfalso
      simp only [track_gammu_operation] at hnone
      split at hnone
      · have h2 := attempt_reconnect_none _ _ _ hnone
        simp [htimer] at h2
      · have h2 := attempt_reconnect_none _ _ _
          (check_restart_timeout_none _ _ hnone)
        simp [htimer] at h2
    | opError o c m rOk sOk eOk =>
      exfalso
      simp only [track_gammu_operation] at hnone
      split at hnone
      · have h2 := trigger_emergency_reset_none _ _ _ _ _ hnone
        simp [htimer] at h2
      · split at hnone
        · have h2 := attempt_reconnect_none _ _ _ hnone
          simp [htimer] at h2
        · have h2 := attempt_reconnect_none _ _ _
            (check_restart_timeout_none _ _ hnone)
          simp [htimer] at h2

/-- C2 witness: with the timer at t=3, a non-qualifying `GetSignalQuality`
success during hard-offline and a successful reconnect both leave the timer
at t=3. -/
theorem C2_recovery_timer_preserved_witness :
    (track_gammu_operation
      { device_tracker := { hard_offline := true,
                            hard_offline_operation := some "retrieveAllSms" },
        failure_start_time := some 3 } 10
      (.opSuccess (some "GetSignalQuality"))).state.failure_start_time =
      some 3 ∧
    (attempt_reconnect_if_needed
      { device_tracker := { hard_offline := true,
                            hard_offline_operation := some "retrieveAllSms" },
        failure_start_time := some 3 } 10 true).1.failure_start_time =
      some 3 := by
  have h := C2_recovery_timer_preserved
    { device_tracker := { hard_offline := true,
                          hard_offline_operation := some "retrieveAllSms" },
      failure_start_time := some 3 } 10 3 (some "GetSignalQuality") none true
    true (.opSuccess (some "GetSignalQuality")) rfl
  exact ⟨h.2.2.1 (by decide), h.1⟩

/-- C5 counterexample: with `auto_restart_on_failure` disabled, a failure
with device-open error code 2 does not terminate the process, refuting the
unconditional claim. -/
theorem C5_fatal_code_counterexample :
    (track_gammu_operation { auto_restart_on_failure := false } 0
      (.opError (some "SendSMS") (some 2) (some "device open error")
        false false false)).exited = false := by decide

/-- C5 amended: when `auto_restart_on_failure` is enabled, a failure with
device-open (2) or device-write (11) error code terminates the process
immediately, without attempting a soft reset or reconnect and without
consulting or changing the failure window. -/
theorem C5_fatal_codes_restart_enabled (p : MQTTPublisher) (now : Nat)
    (op msg : Option String) (code : Nat) (rOk sOk eOk : Bool)
    (hcode : code = 2 ∨ code = 11)
    (henabled : p.auto_restart_on_failure = true) :
    (track_gammu_operation p now
      (.opError op (some code) msg rOk sOk eOk)).exited = true ∧
    (track_gammu_operation p now
      (.opError op (some code) msg rOk sOk eOk)).actions.softResetAttempted =
      false ∧
    (track_gammu_operation p now
      (.opError op (some code) msg rOk sOk eOk)).actions.reconnectAttempted =
      false ∧
    (track_gammu_operation p now
      (.opError op (some code) msg rOk sOk eOk)).state.failure_start_time =
      p.failure_start_time := by
  rcases hcode with h | h <;> subst h <;>
    simp [track_gammu_operation, trigger_emergency_reset,
      RECOVERABLE_ERROR_CODES, henabled]

/-- C5 amended witness: with the default configuration, a device-open error
(code 2) exits immediately. -/
theorem C5_fatal_codes_restart_enabled_witness :
    (track_gammu_operation {} 0 (.opError (some "SendSMS") (some 2)
      (some "device open error") false false false)).exited = true := by
  have h := C5_fatal_codes_restart_enabled {} 0 (some "SendSMS")
    (some "device open error") 2 false false false (Or.inl rfl) rfl
  exact h.1

end GsmGateway
